import Mathlib

/-!
Verification of the Hand2Data OCR backend orchestration core.

The definitions below are shallow embeddings of the Python source:

* `get_preprocessing_settings` embeds
  `TesseractService._get_preprocessing_settings`
  (backend/app/services/tesseract_service.py, lines 69-122);
* `fix_blur_kernel` and `preprocess_image` embed the shared body of
  `TesseractService.preprocess_image` (tesseract_service.py, lines 32-67)
  and `TrOCRService.preprocess_image` (trocr_service.py, lines 139-174),
  which are textually identical;
* `get_generation_config` embeds `TrOCRService._get_generation_config`
  (trocr_service.py, lines 176-233);
* `avg_confidence` / `reported_confidence` embed the confidence
  computation in `TesseractService.extract_text`
  (tesseract_service.py, lines 196-208);
* `check_local_model`, `load_model`, `download_model` embed
  `TrOCRService._check_local_model`, `TrOCRService._load_model` and
  `TrOCRService.download_model` (trocr_service.py);
* `extract_text_route` and `clear_model_cache` embed the route handlers
  `extract_text` and `clear_model_cache`
  (backend/app/routes/ocr_routes.py).

Machine integers are modelled as `Int` (Python integers are unbounded),
fractional values as `ℚ`.  External effects (the filesystem, the child
download process, the two recognition engines, the compute device) are
parameters of the embedding; every branch of the embedded control flow
mirrors a branch of the Python code.
-/

/-! ### Preset resolver (tesseract_service.py, lines 69-122)

The Python function builds a dict, filling it per `processing_speed`
and then mutating it per `accuracy_level`.  Keys that were never set are
`none`; `Dict.get(key, default)` becomes `Option.getD`. -/

/-- The dict built by `_get_preprocessing_settings`: each field is `none`
when the corresponding key is absent. -/
structure PreprocSettings where
  blur_kernel : Option Int
  threshold_method : Option String
  block_size : Option Int
  c_value : Option Int
deriving DecidableEq, Repr

/-- Embedding of `TesseractService._get_preprocessing_settings`
(tesseract_service.py, lines 69-122). -/
def get_preprocessing_settings (processing_speed accuracy_level : String) :
    PreprocSettings :=
  let s0 : PreprocSettings := ⟨none, none, none, none⟩
  let s1 :=
    if processing_speed = "fast" then
      PreprocSettings.mk (some 3) (some "Simple") (some 7) (some 1)
    else if processing_speed = "balanced" then
      PreprocSettings.mk (some 5) (some "Adaptive Gaussian") (some 11) (some 2)
    else if processing_speed = "high" then
      PreprocSettings.mk (some 7) (some "Adaptive Gaussian") (some 15) (some 3)
    else if processing_speed = "maximum" then
      PreprocSettings.mk (some 9) (some "Otsu") (some 19) (some 4)
    else s0
  if accuracy_level = "low" then s1
  else if accuracy_level = "medium" then
    if processing_speed ≠ "fast" then
      { s1 with threshold_method := some "Adaptive Gaussian" }
    else s1
  else if accuracy_level = "high" then
    if processing_speed ≠ "fast" ∧ processing_speed ≠ "balanced" then
      { s1 with threshold_method := some "Adaptive Gaussian",
                block_size := some (max (s1.block_size.getD 11) 13) }
    else s1
  else if accuracy_level = "maximum" then
    { s1 with threshold_method := some "Otsu",
              block_size := some (max (s1.block_size.getD 11) 15),
              c_value := some (max (s1.c_value.getD 2) 3) }
  else s1

/-! ### The spec-side policy table (spec section 4.2)

`spec_resolve` is written from the words of the specification, to be
compared with `get_preprocessing_settings`, which is written from the
source. -/

inductive Speed | fast | balanced | high | maximum
deriving DecidableEq, Fintype, Repr

inductive Accuracy | low | medium | high | maximum
deriving DecidableEq, Fintype, Repr

inductive ThresholdMethodE | adaptiveGaussian | adaptiveMean | otsu | simple
deriving DecidableEq, Repr

/-- The request string for each processing speed. -/
def Speed.toKey : Speed → String
  | .fast => "fast"
  | .balanced => "balanced"
  | .high => "high"
  | .maximum => "maximum"

/-- The request string for each accuracy level. -/
def Accuracy.toKey : Accuracy → String
  | .low => "low"
  | .medium => "medium"
  | .high => "high"
  | .maximum => "maximum"

/-- The string name of each threshold method. -/
def ThresholdMethodE.toKey : ThresholdMethodE → String
  | .adaptiveGaussian => "Adaptive Gaussian"
  | .adaptiveMean => "Adaptive Mean"
  | .otsu => "Otsu"
  | .simple => "Simple"

structure SpecSettings where
  blur : Int
  method : ThresholdMethodE
  block : Int
  c : Int
deriving DecidableEq, Repr

/-- Spec section 4.2: the speed row of the policy table. -/
def spec_baseline : Speed → SpecSettings
  | .fast => ⟨3, .simple, 7, 1⟩
  | .balanced => ⟨5, .adaptiveGaussian, 11, 2⟩
  | .high => ⟨7, .adaptiveGaussian, 15, 3⟩
  | .maximum => ⟨9, .otsu, 19, 4⟩

/-- Spec section 4.2: the accuracy overlay applied to the speed baseline. -/
def spec_overlay (s : Speed) (a : Accuracy) (b : SpecSettings) : SpecSettings :=
  match a with
  | .low => b
  | .medium => if s ≠ .fast then { b with method := .adaptiveGaussian } else b
  | .high =>
      if s ≠ .fast ∧ s ≠ .balanced then
        { b with method := .adaptiveGaussian, block := max b.block 13 }
      else b
  | .maximum =>
      { b with method := .otsu, block := max b.block 15, c := max b.c 3 }

/-- Modelled from the spec (section 4.2): resolve a preset against the
policy table with the accuracy overlay. -/
def spec_resolve (s : Speed) (a : Accuracy) : SpecSettings :=
  spec_overlay s a (spec_baseline s)

/-- View of a spec-side settings record as the dict the source builds. -/
def SpecSettings.toSettings (b : SpecSettings) : PreprocSettings :=
  ⟨some b.blur, some b.method.toKey, some b.block, some b.c⟩

/-- Claim C1: preset resolution is total and deterministic over the 4x4
(speed, accuracy) grid, matches the section 4.2 policy table with the
accuracy overlay applied, and in particular resolves (fast, low) to
blur 3 / Simple / block 7 / c 1 and (maximum, maximum) to
blur 9 / Otsu / block 19 / c 4. -/
theorem preset_resolution_matches_spec_table :
    (∀ s : Speed, ∀ a : Accuracy,
      get_preprocessing_settings s.toKey a.toKey =
        get_preprocessing_settings s.toKey a.toKey) ∧
    (∀ s : Speed, ∀ a : Accuracy,
      get_preprocessing_settings s.toKey a.toKey =
        (spec_resolve s a).toSettings) ∧
    get_preprocessing_settings "fast" "low" =
      ⟨some 3, some "Simple", some 7, some 1⟩ ∧
    get_preprocessing_settings "maximum" "maximum" =
      ⟨some 9, some "Otsu", some 19, some 4⟩ := by
  refine ⟨fun s a => rfl, ?_, by decide, by decide⟩
  decide

/-! ### Preprocessing pipeline (tesseract_service.py lines 32-67,
trocr_service.py lines 139-174; the two bodies are identical)

The pixel-level operations (grayscale conversion, Gaussian blur, the
four cv2 threshold calls) are external library calls; the embedding
records which operation the pipeline selects and with which parameters,
which is exactly what the control flow of the source decides. -/

/-- Embedding of the blur-kernel coercion: the source tests
`blur_kernel % 2 == 0` and increments when true.  Python `%` on a
positive modulus agrees with `Int.emod`. -/
def fix_blur_kernel (blur_kernel : Int) : Int :=
  if blur_kernel % 2 = 0 then blur_kernel + 1 else blur_kernel

/-- The threshold operation the pipeline hands to cv2, with the
parameters the source passes. -/
inductive ThresholdOp
  | adaptiveGaussian (block_size c_value : Int)
  | adaptiveMean (block_size c_value : Int)
  | otsu
  | simple (simple_thresh_value : Int)
deriving DecidableEq, Repr

/-- The transform plan the pipeline selects: the blur kernel actually
used and the threshold operation applied. -/
structure PreprocessPlan where
  blurKernel : Int
  thresholdOp : ThresholdOp
deriving DecidableEq, Repr

/-- Embedding of the shared `preprocess_image` body: coerce the blur
kernel, then select the threshold branch by string comparison, with the
final `else` falling through to simple thresholding. -/
def preprocess_image (blur_kernel : Int) (threshold_method : String)
    (block_size c_value simple_thresh_value : Int) : PreprocessPlan :=
  let bk := fix_blur_kernel blur_kernel
  let op :=
    if threshold_method = "Adaptive Gaussian" then
      ThresholdOp.adaptiveGaussian block_size c_value
    else if threshold_method = "Adaptive Mean" then
      ThresholdOp.adaptiveMean block_size c_value
    else if threshold_method = "Otsu" then
      ThresholdOp.otsu
    else
      ThresholdOp.simple simple_thresh_value
  ⟨bk, op⟩

/-- Claim C7, counterexample: the coercion does not produce a value that
is at least 1 on every integer input — the odd input -3 is used
unchanged, and -3 < 1 (likewise -2 becomes -1). -/
theorem blur_kernel_not_always_ge_one :
    fix_blur_kernel (-3) = -3 ∧ ¬ (1 ≤ fix_blur_kernel (-3)) ∧
    fix_blur_kernel (-2) = -1 := by
  refine ⟨by decide, by decide, by decide⟩

/-- Claim C7, amended: the blur kernel is always coerced to an odd
value — every even integer input is replaced by input+1 and every odd
integer input is used unchanged — and the result is at least 1 whenever
the input is nonnegative (the coercion enforces no lower bound for
negative inputs). -/
theorem blur_kernel_coercion (k : Int) :
    (Even k → fix_blur_kernel k = k + 1) ∧
    (Odd k → fix_blur_kernel k = k) ∧
    Odd (fix_blur_kernel k) ∧
    (0 ≤ k → 1 ≤ fix_blur_kernel k) := by
  have hpar : k % 2 = 0 ∨ k % 2 = 1 := Int.emod_two_eq k
  constructor
  · intro he
    have h0 : k % 2 = 0 := Int.even_iff.mp he
    simp [fix_blur_kernel, h0]
  constructor
  · intro ho
    have h1 : k % 2 = 1 := Int.odd_iff.mp ho
    simp [fix_blur_kernel, h1]
  constructor
  · rcases hpar with h0 | h1
    · have : fix_blur_kernel k = k + 1 := by simp [fix_blur_kernel, h0]
      rw [this]
      exact (Int.even_iff.mpr h0).add_one
    · have : fix_blur_kernel k = k := by simp [fix_blur_kernel, h1]
      rw [this]
      exact Int.odd_iff.mpr h1
  · intro hk
    rcases hpar with h0 | h1
    · simp only [fix_blur_kernel, h0, if_pos]
      omega
    · have hne : ¬ (k % 2 = 0) := by omega
      simp only [fix_blur_kernel, if_neg hne]
      omega

/-- Claim C7, witness: the amended coercion facts evaluated at the even
input 4 and the odd input 7. -/
theorem blur_kernel_coercion_witness :
    fix_blur_kernel 4 = 5 ∧ fix_blur_kernel 7 = 7 ∧
    1 ≤ fix_blur_kernel 4 :=
  ⟨(blur_kernel_coercion 4).1 (by decide),
   (blur_kernel_coercion 7).2.1 (by decide),
   (blur_kernel_coercion 4).2.2.2 (by decide)⟩

/-- Claim C10: every threshold-method string other than exactly
"Adaptive Gaussian", "Adaptive Mean" or "Otsu" — arbitrary unknown
strings included — silently selects simple global thresholding at
`simple_thresh_value`; no method name is rejected. -/
theorem unknown_threshold_method_falls_through_to_simple
    (m : String) (h1 : m ≠ "Adaptive Gaussian") (h2 : m ≠ "Adaptive Mean")
    (h3 : m ≠ "Otsu") (bk bs c stv : Int) :
    preprocess_image bk m bs c stv =
      ⟨fix_blur_kernel bk, ThresholdOp.simple stv⟩ := by
  simp [preprocess_image, h1, h2, h3]

/-- Claim C10, witness: the unrecognized method name "Triangle" selects
simple thresholding at the given cutoff. -/
theorem unknown_threshold_method_witness :
    preprocess_image 5 "Triangle" 11 2 127 =
      ⟨5, ThresholdOp.simple 127⟩ :=
  unknown_threshold_method_falls_through_to_simple "Triangle"
    (by decide) (by decide) (by decide) 5 11 2 127

/-! ### Deterministic-engine confidence (tesseract_service.py,
lines 196-208)

The source computes
`confidences = [int(c) for c in data[conf_key] if int(c) > 0]` and
`avg_confidence = sum(confidences) / len(confidences) if confidences
else 0`; when reading the confidence data raises, the `except` arm sets
`avg_confidence = 0.95`.  The returned dict divides by 100 either way.
`reported_confidence (some conf)` is the normal path on token data
`conf`; `reported_confidence none` is the exception path. -/

/-- Embedding of the average-confidence computation on the per-token
confidence list. -/
def avg_confidence (conf : List Int) : ℚ :=
  let confidences := conf.filter (fun c => 0 < c)
  if confidences.isEmpty then 0
  else (confidences.sum : ℚ) / confidences.length

/-- Embedding of the confidence value placed in the result dict:
average over the data when reading it succeeds, the 0.95 default when
it raises, divided by 100 in both cases. -/
def reported_confidence (dataResult : Option (List Int)) : ℚ :=
  (match dataResult with
   | some conf => avg_confidence conf
   | none => 95 / 100) / 100

/-- Claim C3, counterexample: an image whose per-token confidence list
is empty is reported with confidence zero, not with the fixed 0.95
constant. -/
theorem empty_confidence_list_reports_zero :
    avg_confidence [] = 0 ∧ avg_confidence [] ≠ 95 / 100 ∧
    reported_confidence (some []) = 0 := by
  have h : avg_confidence [] = 0 := by simp [avg_confidence]
  refine ⟨h, by rw [h]; norm_num, ?_⟩
  simp [reported_confidence, h]

/-- Claim C3, amended: the reported confidence is the average of the
strictly positive per-token confidence values (scaled by 1/100); if no
positive per-token value remains the reported confidence is zero; the
fixed 0.95 constant applies only when reading the confidence data
raises an exception.  In particular the average is strictly positive
exactly when some positive per-token value exists. -/
theorem confidence_average_characterization (conf : List Int) :
    (conf.filter (fun c => 0 < c) = [] → avg_confidence conf = 0) ∧
    (conf.filter (fun c => 0 < c) ≠ [] →
      avg_confidence conf =
        ((conf.filter (fun c => 0 < c)).sum : ℚ) /
          (conf.filter (fun c => 0 < c)).length ∧
      0 < avg_confidence conf) ∧
    reported_confidence (some conf) = avg_confidence conf / 100 ∧
    reported_confidence none = (95 : ℚ) / 100 / 100 := by
  refine ⟨?_, ?_, rfl, rfl⟩
  · intro h
    simp [avg_confidence, h]
  · intro h
    have hne : ¬ (conf.filter (fun c => 0 < c)).isEmpty := by
      simpa [List.isEmpty_iff] using h
    have havg : avg_confidence conf =
        ((conf.filter (fun c => 0 < c)).sum : ℚ) /
          (conf.filter (fun c => 0 < c)).length := by
      simp [avg_confidence, hne]
    refine ⟨havg, ?_⟩
    rw [havg]
    have hpos : ∀ x ∈ conf.filter (fun c => 0 < c), 0 < x := by
      intro x hx
      exact of_decide_eq_true (List.mem_filter.mp hx).2
    have hsum : 0 < (conf.filter (fun c => 0 < c)).sum :=
      List.sum_pos _ hpos h
    have hlen : 0 < ((conf.filter (fun c => 0 < c)).length : ℚ) := by
      have : 0 < (conf.filter (fun c => 0 < c)).length :=
        List.length_pos.mpr h
      exact_mod_cast this
    exact div_pos (by exact_mod_cast hsum) hlen

/-- Claim C3, witness: the characterization evaluated on the concrete
token list [80, 0, -1], whose positive part is [80]. -/
theorem confidence_average_witness :
    avg_confidence [80, 0, -1] = (80 : ℚ) / 1 ∧
    0 < avg_confidence [80, 0, -1] ∧ avg_confidence [] = 0 :=
  ⟨((confidence_average_characterization [80, 0, -1]).2.1 (by decide)).1,
   ((confidence_average_characterization [80, 0, -1]).2.1 (by decide)).2,
   (confidence_average_characterization []).1 (by decide)⟩

/-! ### Neural-engine generation parameters (trocr_service.py,
lines 176-233)

The Python function builds a dict starting from
`{max_length: 128, early_stopping: True}`, overwrites per
`processing_speed`, then per `accuracy_level`.  Fields that a branch
never sets are `none`; `config.get("num_beams", 1)` becomes
`Option.getD _ 1`.  The float constants 0.8, 0.9, 0.7 are the exact
rationals 8/10, 9/10, 7/10. -/

/-- The generation-config dict: `max_length` and `early_stopping` are
always present, every other key is optional. -/
structure GenerationConfig where
  max_length : Int
  early_stopping : Bool
  num_beams : Option Int
  do_sample : Option Bool
  temperature : Option ℚ
  top_p : Option ℚ
  top_k : Option Int
deriving DecidableEq, Repr

/-- Embedding of `TrOCRService._get_generation_config`
(trocr_service.py, lines 176-233). -/
def get_generation_config (processing_speed accuracy_level : String) :
    GenerationConfig :=
  let c0 : GenerationConfig := ⟨128, true, none, none, none, none, none⟩
  let c1 :=
    if processing_speed = "fast" then
      { c0 with num_beams := some 1, do_sample := some false,
                temperature := some 1 }
    else if processing_speed = "balanced" then
      { c0 with num_beams := some 3, do_sample := some false,
                temperature := some 1 }
    else if processing_speed = "high" then
      { c0 with num_beams := some 5, do_sample := some false,
                temperature := some 1 }
    else if processing_speed = "maximum" then
      { c0 with num_beams := some 8, do_sample := some true,
                temperature := some (8 / 10), top_p := some (9 / 10),
                top_k := some 50 }
    else c0
  if accuracy_level = "low" then c1
  else if accuracy_level = "medium" then
    if processing_speed ≠ "fast" then
      { c1 with num_beams := some (max (c1.num_beams.getD 1) 3) }
    else c1
  else if accuracy_level = "high" then
    if processing_speed ≠ "fast" ∧ processing_speed ≠ "balanced" then
      { c1 with num_beams := some (max (c1.num_beams.getD 1) 5),
                max_length := 150 }
    else c1
  else if accuracy_level = "maximum" then
    { c1 with num_beams := some (max (c1.num_beams.getD 1) 8),
              max_length := 200, do_sample := some true,
              temperature := some (7 / 10), top_p := some (9 / 10),
              top_k := some 50 }
  else c1

/-- Claim C6, counterexample: at (speed=fast, accuracy=high) the max
output length stays 128, not the 150 the stepwise rule announces for
accuracy=high — the 150 upgrade is guarded by
speed not in [fast, balanced] (likewise (balanced, high) stays 128). -/
theorem max_length_not_stepwise_at_fast_high :
    (get_generation_config "fast" "high").max_length = 128 ∧
    (get_generation_config "balanced" "high").max_length = 128 ∧
    (128 : Int) ≠ 150 := by
  refine ⟨by decide, by decide, by decide⟩

/-- The speed-row beam widths of the claimed monotonic-upgrade rule. -/
def baseline_beams : Speed → Int
  | .fast => 1
  | .balanced => 3
  | .high => 5
  | .maximum => 8

/-- Claim C6, amended: over the 4x4 grid the neural runtime parameters
follow the monotonic-upgrade rule — beam width is 1, 3, 5, 8 along the
speed axis at baseline accuracy and never decreases along the speed
axis for any fixed accuracy; sampling (do_sample with
temperature/top-p/top-k) activates exactly when speed=maximum or
accuracy=maximum; and max output length is 200 at accuracy=maximum and
150 at accuracy=high, except that the high upgrade is skipped for
speed fast or balanced, where (as for low/medium) it remains 128. -/
theorem generation_config_upgrade_rule :
    (∀ s : Speed,
      (get_generation_config s.toKey "low").num_beams =
        some (baseline_beams s)) ∧
    (∀ a : Accuracy, ∀ s t : Speed, baseline_beams s ≤ baseline_beams t →
      (get_generation_config s.toKey a.toKey).num_beams.getD 1 ≤
        (get_generation_config t.toKey a.toKey).num_beams.getD 1) ∧
    (∀ s : Speed, ∀ a : Accuracy,
      ((get_generation_config s.toKey a.toKey).do_sample = some true ↔
        (s = .maximum ∨ a = .maximum)) ∧
      ((get_generation_config s.toKey a.toKey).top_p.isSome ↔
        (s = .maximum ∨ a = .maximum)) ∧
      ((get_generation_config s.toKey a.toKey).top_k.isSome ↔
        (s = .maximum ∨ a = .maximum))) ∧
    (∀ s : Speed, ∀ a : Accuracy,
      (get_generation_config s.toKey a.toKey).max_length =
        if a = .maximum then 200
        else if a = .high ∧ s ≠ .fast ∧ s ≠ .balanced then 150
        else 128) := by
  refine ⟨by decide, by decide, by decide, by decide⟩

/-! ### Model lifecycle manager (trocr_service.py)

The filesystem is abstracted as the set of existing paths
(`fs : String → Bool`); the child download process as a `RunOutcome`;
the success of the in-process model load as `load_ok`; the detected
compute device as the string `device_info`.  Each embedding returns,
besides its value and the updated service state, the ordered list of
observable events it performed, which is what the never/always-invokes
claims quantify over. -/

/-- Observable engine and lifecycle events, in execution order. -/
inductive Event
  | writeTempScript
  | runDownloadScript
  | removeTempScript
  | loadFromLocal
  | loadFromRepo
  | tesseractExtract
  | trocrExtract
deriving DecidableEq, Repr

/-- The mutable `TrOCRService` fields the claims depend on. -/
structure TrocrState where
  model_loaded : Bool
  current_model_type : Option String
  status : String
deriving DecidableEq, Repr

/-- The keys of the fixed model catalog `available_models`
(trocr_service.py, lines 21-46). -/
def available_model_types : List String :=
  ["small-handwritten", "small-printed", "base-handwritten",
   "base-printed", "large-handwritten", "large-printed"]

/-- Embedding of `_get_model_path` (lines 50-57): the dedicated local
directory of a model type.  The absolute prefix up to the backend
directory is environment-dependent and elided. -/
def get_model_path (model_type : String) : String :=
  "python_ocr/trocr-" ++ model_type

/-- The fixed processor-file set of `_check_local_model` (line 64). -/
def processor_files : List String :=
  ["tokenizer.json", "tokenizer_config.json", "preprocessor_config.json"]

/-- The fixed model-file set of `_check_local_model` (line 65). -/
def model_files : List String :=
  ["config.json", "pytorch_model.bin"]

/-- Embedding of `_check_local_model` (lines 59-71): the directory must
exist and every file of both fixed sets must exist under it; anything
less counts as absent.  The Python function also returns the directory
path, recoverable as `get_model_path`. -/
def check_local_model (fs : String → Bool) (model_type : String) : Bool :=
  let model_dir := get_model_path model_type
  if fs model_dir then
    (processor_files.all fun f => fs (model_dir ++ "/" ++ f)) &&
    (model_files.all fun f => fs (model_dir ++ "/" ++ f))
  else false

/-- Embedding of `_load_model` (lines 91-137): load from the local
directory when the cache check passes, otherwise from the remote
repository.  `load_ok` is true when the body raises no exception; the
`except` arm records an error status and clears `model_loaded`.
`device_info` stands for the runtime-detected device description
interpolated into the ready status. -/
def load_model (fs : String → Bool) (model_type : String) (load_ok : Bool)
    (device_info : String) (st : TrocrState) : TrocrState × List Event :=
  let ev := if check_local_model fs model_type then [Event.loadFromLocal]
            else [Event.loadFromRepo]
  if load_ok then
    ({ st with model_loaded := true, current_model_type := some model_type,
               status := "Ready - " ++ model_type ++ " - Using " ++
                 device_info },
     ev)
  else
    ({ st with model_loaded := false,
               status := "Error loading TrOCR " ++ model_type ++ " model" },
     ev)

/-- Outcome of `subprocess.run` on the temporary download script
(lines 346-415): normal completion with an exit code, the five-minute
timeout, a keyboard interruption, or another exception. -/
inductive RunOutcome
  | completed (returncode : Int) (stdout stderr : String)
  | timedOut
  | interrupted
  | raised (msg : String)
deriving DecidableEq, Repr

/-- The structured dict `download_model` returns.  The `output` and
`error` keys some arms attach are not tracked. -/
structure DownloadResult where
  success : Bool
  message : String
  status : String
deriving DecidableEq, Repr

/-- Run outcomes the download claims call failures: timeout, non-zero
exit, interruption, or another exception during the script run. -/
def RunOutcome.failing : RunOutcome → Bool
  | .completed rc _ _ => rc ≠ 0
  | _ => true

/-- Embedding of `TrOCRService.download_model` (lines 286-424):
validate the model type against the catalog, return early when the
requested model is already loaded, load directly when the local cache
is present, and otherwise write the temporary parameter script, run it
with the five-minute timeout, and remove the script on every exit arm
before returning the structured result.  The invalid-type message in
the source appends the Python repr of the catalog key list; the
embedding joins the same keys with commas. -/
def download_model (fs : String → Bool) (model_type : String)
    (run : RunOutcome) (load_ok : Bool) (device_info : String)
    (st : TrocrState) : DownloadResult × TrocrState × List Event :=
  if model_type ∉ available_model_types then
    (⟨false,
      "Invalid model type: " ++ model_type ++ ". Available types: " ++
        String.intercalate ", " available_model_types,
      "Error"⟩, st, [])
  else if st.model_loaded = true ∧ st.current_model_type = some model_type then
    (⟨true, "Model " ++ model_type ++ " already loaded", st.status⟩, st, [])
  else if check_local_model fs model_type then
    let st1 := { st with
      status := "Local " ++ model_type ++ " model found, loading..." }
    let r := load_model fs model_type load_ok device_info st1
    (⟨true, "Model " ++ model_type ++ " loaded from local cache",
      r.1.status⟩, r.1, r.2)
  else
    let st1 := { st with
      status := "Downloading TrOCR " ++ model_type ++
        " model... This may take several minutes." }
    match run with
    | .completed rc _ err =>
        if rc = 0 then
          let r := load_model fs model_type load_ok device_info st1
          (⟨true,
            "Model " ++ model_type ++ " downloaded and loaded successfully",
            r.1.status⟩, r.1,
           [Event.writeTempScript, Event.runDownloadScript,
            Event.removeTempScript] ++ r.2)
        else
          let error_msg := "Download script failed: " ++ err
          let st2 := { st1 with status := "Error: " ++ error_msg }
          (⟨false, error_msg, st2.status⟩, st2,
           [Event.writeTempScript, Event.runDownloadScript,
            Event.removeTempScript])
    | .timedOut =>
        let error_msg := "Model download timed out after 5 minutes"
        let st2 := { st1 with status := "Error: " ++ error_msg }
        (⟨false, error_msg, st2.status⟩, st2,
         [Event.writeTempScript, Event.runDownloadScript,
          Event.removeTempScript])
    | .interrupted =>
        let error_msg := "Model download was interrupted"
        let st2 := { st1 with status := "Error: " ++ error_msg }
        (⟨false, error_msg, st2.status⟩, st2,
         [Event.writeTempScript, Event.runDownloadScript,
          Event.removeTempScript])
    | .raised m =>
        let error_msg := "Download script execution failed: " ++ m
        let st2 := { st1 with status := "Error: " ++ error_msg }
        (⟨false, error_msg, st2.status⟩, st2,
         [Event.writeTempScript, Event.runDownloadScript,
          Event.removeTempScript])

/-- A string with a nonempty left part is nonempty. -/
theorem append_left_ne_empty (s t : String) (h : 0 < s.length) :
    s ++ t ≠ "" := by
  intro hc
  have hlen := congrArg String.length hc
  rw [String.length_append] at hlen
  simp at hlen
  omega

/-- Claim C5: when the local cache for a catalog model type is present
(all files of the fixed processor set and the fixed model set exist
under its dedicated directory), ensuring the model is loaded never
performs the external download step — no temporary script is written
and the download script never runs — never loads from the remote
repository, and, unless the model is already loaded, loads directly
from the local directory. -/
theorem present_cache_never_downloads
    (fs : String → Bool) (model_type : String) (run : RunOutcome)
    (load_ok : Bool) (device_info : String) (st : TrocrState)
    (hcat : model_type ∈ available_model_types)
    (hlocal : check_local_model fs model_type = true) :
    Event.writeTempScript ∉
      (download_model fs model_type run load_ok device_info st).2.2 ∧
    Event.runDownloadScript ∉
      (download_model fs model_type run load_ok device_info st).2.2 ∧
    Event.loadFromRepo ∉
      (download_model fs model_type run load_ok device_info st).2.2 ∧
    (¬ (st.model_loaded = true ∧ st.current_model_type = some model_type) →
      Event.loadFromLocal ∈
        (download_model fs model_type run load_ok device_info st).2.2) := by
  have h1 : ¬ model_type ∉ available_model_types := fun h => h hcat
  by_cases h2 : st.model_loaded = true ∧ st.current_model_type = some model_type
  · have htrace :
        (download_model fs model_type run load_ok device_info st).2.2 = [] := by
      simp [download_model, h1, h2]
    rw [htrace]
    exact ⟨by simp, by simp, by simp, fun hc => absurd h2 hc⟩
  · have htrace :
        (download_model fs model_type run load_ok device_info st).2.2 =
          [Event.loadFromLocal] := by
      cases hok : load_ok <;>
        simp [download_model, load_model, h1, h2, hlocal, hok]
    rw [htrace]
    exact ⟨by simp, by simp, by simp, fun _ => by simp⟩

/-- Claim C5, witness: a filesystem holding the complete file set for
the small-printed model; the download step does not appear in the
resulting trace and the load reads the local directory. -/
theorem present_cache_never_downloads_witness :
    Event.runDownloadScript ∉
      (download_model
        (fun p => ["python_ocr/trocr-small-printed",
          "python_ocr/trocr-small-printed/tokenizer.json",
          "python_ocr/trocr-small-printed/tokenizer_config.json",
          "python_ocr/trocr-small-printed/preprocessor_config.json",
          "python_ocr/trocr-small-printed/config.json",
          "python_ocr/trocr-small-printed/pytorch_model.bin"].contains p)
        "small-printed" RunOutcome.timedOut true "cpu"
        ⟨false, none, "Not loaded"⟩).2.2 ∧
    Event.loadFromLocal ∈
      (download_model
        (fun p => ["python_ocr/trocr-small-printed",
          "python_ocr/trocr-small-printed/tokenizer.json",
          "python_ocr/trocr-small-printed/tokenizer_config.json",
          "python_ocr/trocr-small-printed/preprocessor_config.json",
          "python_ocr/trocr-small-printed/config.json",
          "python_ocr/trocr-small-printed/pytorch_model.bin"].contains p)
        "small-printed" RunOutcome.timedOut true "cpu"
        ⟨false, none, "Not loaded"⟩).2.2 := by
  have h := present_cache_never_downloads
    (fun p => ["python_ocr/trocr-small-printed",
      "python_ocr/trocr-small-printed/tokenizer.json",
      "python_ocr/trocr-small-printed/tokenizer_config.json",
      "python_ocr/trocr-small-printed/preprocessor_config.json",
      "python_ocr/trocr-small-printed/config.json",
      "python_ocr/trocr-small-printed/pytorch_model.bin"].contains p)
    "small-printed" RunOutcome.timedOut true "cpu"
    ⟨false, none, "Not loaded"⟩ (by decide) (by decide)
  exact ⟨h.2.1, h.2.2.2 (by simp)⟩

/-- Claim C9: on the download path, the temporary parameter script is
written and removed on every exit arm (success, non-zero exit, timeout,
interruption, other exception), and every failing run outcome yields a
structured failure value — success is false and the human-readable
message is nonempty — rather than an exception. -/
theorem download_failure_structured_and_cleanup
    (fs : String → Bool) (model_type : String) (run : RunOutcome)
    (load_ok : Bool) (device_info : String) (st : TrocrState)
    (hcat : model_type ∈ available_model_types)
    (hnl : ¬ (st.model_loaded = true ∧ st.current_model_type = some model_type))
    (hlocal : check_local_model fs model_type = false) :
    Event.writeTempScript ∈
      (download_model fs model_type run load_ok device_info st).2.2 ∧
    Event.removeTempScript ∈
      (download_model fs model_type run load_ok device_info st).2.2 ∧
    (run.failing = true →
      (download_model fs model_type run load_ok device_info st).1.success
          = false ∧
      (download_model fs model_type run load_ok device_info st).1.message
          ≠ "") := by
  have h1 : ¬ model_type ∉ available_model_types := fun h => h hcat
  cases run with
  | completed rc out err =>
      by_cases hrc : rc = 0
      · refine ⟨?_, ?_, ?_⟩
        · simp [download_model, h1, hnl, hlocal, hrc]
        · simp [download_model, h1, hnl, hlocal, hrc]
        · intro hf
          simp [RunOutcome.failing, hrc] at hf
      · refine ⟨?_, ?_, fun _ => ⟨?_, ?_⟩⟩
        · simp [download_model, h1, hnl, hlocal, hrc]
        · simp [download_model, h1, hnl, hlocal, hrc]
        · simp [download_model, h1, hnl, hlocal, hrc]
        · have hmsg :
              (download_model fs model_type
                (RunOutcome.completed rc out err) load_ok device_info
                st).1.message = "Download script failed: " ++ err := by
            simp [download_model, h1, hnl, hlocal, hrc]
          rw [hmsg]
          exact append_left_ne_empty _ _ (by decide)
  | timedOut =>
      refine ⟨?_, ?_, fun _ => ⟨?_, ?_⟩⟩ <;>
        simp [download_model, h1, hnl, hlocal]
  | interrupted =>
      refine ⟨?_, ?_, fun _ => ⟨?_, ?_⟩⟩ <;>
        simp [download_model, h1, hnl, hlocal]
  | raised m =>
      refine ⟨?_, ?_, fun _ => ⟨?_, ?_⟩⟩
      · simp [download_model, h1, hnl, hlocal]
      · simp [download_model, h1, hnl, hlocal]
      · simp [download_model, h1, hnl, hlocal]
      · have hmsg :
            (download_model fs model_type (RunOutcome.raised m) load_ok
              device_info st).1.message =
              "Download script execution failed: " ++ m := by
          simp [download_model, h1, hnl, hlocal]
        rw [hmsg]
        exact append_left_ne_empty _ _ (by decide)

/-- Claim C9, witness: a timed-out download on an empty filesystem
returns success=false with a nonempty message, and the temporary script
is both written and removed. -/
theorem download_failure_witness :
    (download_model (fun _ => false) "base-printed" RunOutcome.timedOut
      true "cpu" ⟨false, none, "Not loaded"⟩).1.success = false ∧
    (download_model (fun _ => false) "base-printed" RunOutcome.timedOut
      true "cpu" ⟨false, none, "Not loaded"⟩).1.message ≠ "" ∧
    Event.removeTempScript ∈
      (download_model (fun _ => false) "base-printed" RunOutcome.timedOut
        true "cpu" ⟨false, none, "Not loaded"⟩).2.2 := by
  have h := download_failure_structured_and_cleanup (fun _ => false)
    "base-printed" RunOutcome.timedOut true "cpu"
    ⟨false, none, "Not loaded"⟩ (by decide) (by simp) rfl
  exact ⟨(h.2.2 rfl).1, (h.2.2 rfl).2, h.2.1⟩

/-! ### Orchestrating route handler (ocr_routes.py, extract_text)

The handler validates and decodes the upload (no engine work), then
dispatches on `ocr_type`.  The embedding covers the dispatch and
fallback orchestration (lines 56-116) up to the assembled result dict;
the engines are black boxes whose successful outputs are the
parameters `tess_text`, `tess_conf` and `trocr_text`.  Exceptions the
handler surfaces as HTTP errors (the unknown-engine branch of line 116,
or the trocr extraction guard raising when the model is not actually
loaded) are `Except.error`.  The source quotes the two engine names in
the invalid-type detail string; the quotes are elided. -/

/-- The result dict the handler holds after extraction: engine output
plus the fallback keys the fallback arm adds (keys that were never
added are `false` / `none`). -/
structure RouteResult where
  text : String
  confidence : ℚ
  fallback_used : Bool
  fallback_reason : Option String
deriving DecidableEq, Repr

/-- Embedding of the route handler `extract_text`
(ocr_routes.py, lines 21-141): engine dispatch, conditional model load
with fallback to the deterministic engine on load failure, and the
assembled result. -/
def extract_text_route (ocr_type model_type : String) (fs : String → Bool)
    (run : RunOutcome) (load_ok : Bool) (device_info : String)
    (st : TrocrState) (tess_text : String) (tess_conf : ℚ)
    (trocr_text : String) : Except String RouteResult × List Event :=
  if ocr_type = "tesseract" then
    (Except.ok ⟨tess_text, tess_conf, false, none⟩, [Event.tesseractExtract])
  else if ocr_type = "trocr" then
    if st.model_loaded = false ∨ st.current_model_type ≠ some model_type then
      let dl := download_model fs model_type run load_ok device_info st
      if dl.1.success = false then
        (Except.ok ⟨tess_text, tess_conf, true,
          some ("TrOCR model " ++ model_type ++ " failed to load: " ++
            dl.1.message)⟩,
         dl.2.2 ++ [Event.tesseractExtract])
      else if dl.2.1.model_loaded then
        (Except.ok ⟨trocr_text, 95 / 100, false, none⟩,
         dl.2.2 ++ [Event.trocrExtract])
      else
        (Except.error "OCR processing failed: TrOCR model not properly loaded",
         dl.2.2 ++ [Event.trocrExtract])
    else
      (Except.ok ⟨trocr_text, 95 / 100, false, none⟩, [Event.trocrExtract])
  else
    (Except.error "Invalid OCR type. Use tesseract or trocr", [])

/-- On the trocr path, a load reported as failed makes the handler fall
back to the deterministic engine with the failure reason attached. -/
theorem route_fallback_eq
    (model_type : String) (fs : String → Bool) (run : RunOutcome)
    (load_ok : Bool) (device_info : String) (st : TrocrState)
    (tess_text : String) (tess_conf : ℚ) (trocr_text : String)
    (hattempt :
      st.model_loaded = false ∨ st.current_model_type ≠ some model_type)
    (hfail :
      (download_model fs model_type run load_ok device_info st).1.success
        = false) :
    extract_text_route "trocr" model_type fs run load_ok device_info st
        tess_text tess_conf trocr_text =
      (Except.ok ⟨tess_text, tess_conf, true,
        some ("TrOCR model " ++ model_type ++ " failed to load: " ++
          (download_model fs model_type run load_ok device_info
            st).1.message)⟩,
       (download_model fs model_type run load_ok device_info st).2.2 ++
         [Event.tesseractExtract]) := by
  simp [extract_text_route, hattempt, hfail]

/-- Claim C2: for every neural-engine request whose model load is
attempted (no matching model resident) and reported failed, the request
surfaces no error: the deterministic engine runs instead and the
assembled result carries the fallback flag set, a nonempty fallback
reason describing the load failure, and the deterministic engine output
text. -/
theorem neural_load_failure_falls_back
    (model_type : String) (fs : String → Bool) (run : RunOutcome)
    (load_ok : Bool) (device_info : String) (st : TrocrState)
    (tess_text : String) (tess_conf : ℚ) (trocr_text : String)
    (hattempt :
      st.model_loaded = false ∨ st.current_model_type ≠ some model_type)
    (hfail :
      (download_model fs model_type run load_ok device_info st).1.success
        = false) :
    (extract_text_route "trocr" model_type fs run load_ok device_info st
        tess_text tess_conf trocr_text).1 =
      Except.ok ⟨tess_text, tess_conf, true,
        some ("TrOCR model " ++ model_type ++ " failed to load: " ++
          (download_model fs model_type run load_ok device_info
            st).1.message)⟩ ∧
    "TrOCR model " ++ model_type ++ " failed to load: " ++
      (download_model fs model_type run load_ok device_info st).1.message
        ≠ "" ∧
    Event.tesseractExtract ∈
      (extract_text_route "trocr" model_type fs run load_ok device_info st
        tess_text tess_conf trocr_text).2 := by
  have h := route_fallback_eq model_type fs run load_ok device_info st
    tess_text tess_conf trocr_text hattempt hfail
  refine ⟨by rw [h], ?_, by rw [h]; simp⟩
  apply append_left_ne_empty
  rw [String.length_append, String.length_append]
  have hlen : 0 < "TrOCR model ".length := by decide
  omega

/-- Claim C2, witness: a trocr request for large-handwritten on an
empty filesystem with a timed-out download falls back to the
deterministic output HELLO with the fallback flag set. -/
theorem neural_load_failure_witness :
    (extract_text_route "trocr" "large-handwritten" (fun _ => false)
        RunOutcome.timedOut true "cpu" ⟨false, none, "Not loaded"⟩
        "HELLO" 1 "NNN").1 =
      Except.ok ⟨"HELLO", 1, true,
        some ("TrOCR model " ++ "large-handwritten" ++
          " failed to load: " ++
          (download_model (fun _ => false) "large-handwritten"
            RunOutcome.timedOut true "cpu"
            ⟨false, none, "Not loaded"⟩).1.message)⟩ :=
  (neural_load_failure_falls_back "large-handwritten" (fun _ => false)
    RunOutcome.timedOut true "cpu" ⟨false, none, "Not loaded"⟩
    "HELLO" 1 "NNN" (Or.inl rfl) (by decide)).1

/-- Claim C4, counterexample: a request with engine trocr and the
unknown model-type key "bogus" is not rejected — the load reports an
invalid-type failure, the handler falls back, the deterministic engine
runs, and an extraction result is produced. -/
theorem unknown_model_type_produces_result :
    (extract_text_route "trocr" "bogus" (fun _ => false)
        RunOutcome.timedOut true "cpu" ⟨false, none, "Not loaded"⟩
        "HELLO" 1 "NNN").1 =
      Except.ok ⟨"HELLO", 1, true,
        some ("TrOCR model bogus failed to load: Invalid model type: " ++
          "bogus. Available types: " ++
          String.intercalate ", " available_model_types)⟩ ∧
    Event.tesseractExtract ∈
      (extract_text_route "trocr" "bogus" (fun _ => false)
        RunOutcome.timedOut true "cpu" ⟨false, none, "Not loaded"⟩
        "HELLO" 1 "NNN").2 := by
  exact ⟨rfl, by decide⟩

/-- Claim C4, amended: an unknown engine key is rejected with an error
before any engine work begins and produces no extraction result, but an
unknown model-type key is not rejected — the failed load triggers
fallback and the deterministic engine produces an extraction result —
and preprocessing parameters are not validated before engine work
(unknown threshold methods silently fall through to Simple and even
blur kernels are silently incremented rather than rejected). -/
theorem input_error_rejection_scope :
    (∀ ocr_type model_type : String, ∀ fs : String → Bool,
      ∀ run : RunOutcome, ∀ load_ok : Bool, ∀ device_info : String,
      ∀ st : TrocrState, ∀ tess_text : String, ∀ tess_conf : ℚ,
      ∀ trocr_text : String,
      ocr_type ≠ "tesseract" → ocr_type ≠ "trocr" →
      extract_text_route ocr_type model_type fs run load_ok device_info st
          tess_text tess_conf trocr_text =
        (Except.error "Invalid OCR type. Use tesseract or trocr", [])) ∧
    (∀ model_type : String, ∀ fs : String → Bool, ∀ run : RunOutcome,
      ∀ load_ok : Bool, ∀ device_info : String, ∀ st : TrocrState,
      ∀ tess_text : String, ∀ tess_conf : ℚ, ∀ trocr_text : String,
      model_type ∉ available_model_types →
      st.model_loaded = false ∨ st.current_model_type ≠ some model_type →
      (extract_text_route "trocr" model_type fs run load_ok device_info st
          tess_text tess_conf trocr_text).1 =
        Except.ok ⟨tess_text, tess_conf, true,
          some ("TrOCR model " ++ model_type ++ " failed to load: " ++
            (download_model fs model_type run load_ok device_info
              st).1.message)⟩ ∧
      Event.tesseractExtract ∈
        (extract_text_route "trocr" model_type fs run load_ok device_info
          st tess_text tess_conf trocr_text).2) := by
  constructor
  · intro ocr_type model_type fs run load_ok device_info st tess_text
      tess_conf trocr_text h1 h2
    simp [extract_text_route, h1, h2]
  · intro model_type fs run load_ok device_info st tess_text tess_conf
      trocr_text hm hattempt
    have hfail :
        (download_model fs model_type run load_ok device_info st).1.success
          = false := by
      simp [download_model, hm]
    have h := route_fallback_eq model_type fs run load_ok device_info st
      tess_text tess_conf trocr_text hattempt hfail
    exact ⟨by rw [h], by rw [h]; simp⟩

/-- Claim C4, witness: the unknown engine key "neither" is rejected
with no engine event, and the unknown model-type key "bogus" on the
trocr path yields a fallback extraction with the deterministic engine
running. -/
theorem input_error_rejection_scope_witness :
    extract_text_route "neither" "large-handwritten" (fun _ => false)
        RunOutcome.timedOut true "cpu" ⟨false, none, "Not loaded"⟩
        "HELLO" 1 "NNN" =
      (Except.error "Invalid OCR type. Use tesseract or trocr", []) ∧
    Event.tesseractExtract ∈
      (extract_text_route "trocr" "zzz" (fun _ => false)
        RunOutcome.timedOut true "cpu" ⟨false, none, "Not loaded"⟩
        "HELLO" 1 "NNN").2 :=
  ⟨input_error_rejection_scope.1 "neither" "large-handwritten"
      (fun _ => false) RunOutcome.timedOut true "cpu"
      ⟨false, none, "Not loaded"⟩ "HELLO" 1 "NNN"
      (by decide) (by decide),
   (input_error_rejection_scope.2 "zzz" (fun _ => false)
      RunOutcome.timedOut true "cpu" ⟨false, none, "Not loaded"⟩
      "HELLO" 1 "NNN" (by decide) (Or.inl rfl)).2⟩

/-! ### Cache-clear route (ocr_routes.py, lines 258-285) -/

/-- The JSON body the cache-clear handler returns. -/
structure ClearCacheResult where
  success : Bool
  message : String
  status : String
deriving DecidableEq, Repr

/-- Embedding of the route handler `clear_model_cache`
(ocr_routes.py, lines 258-285) over the presence bit of the default
model directory (`_get_model_path()`): when the directory exists the
tree is deleted (the returned flag) and the loaded flag is reset with
the cleared status; when it is absent the handler returns success
without touching the service state. -/
def clear_model_cache (dir_exists : Bool) (st : TrocrState) :
    ClearCacheResult × TrocrState × Bool :=
  if dir_exists then
    let st2 := { st with model_loaded := false,
                         status := "Local cache cleared" }
    (⟨true, "Model cache cleared successfully", st2.status⟩, st2, true)
  else
    (⟨true, "No local cache found", "No cache to clear"⟩, st, false)

/-- Claim C8: cache-clear is idempotent — clearing with the cache
directory already absent returns success with no error and leaves the
state untouched and nothing deleted; clearing with the directory
present deletes it, resets the loaded flag to false, and also returns
success. -/
theorem cache_clear_idempotent_success (st : TrocrState) :
    clear_model_cache false st =
      (⟨true, "No local cache found", "No cache to clear"⟩, st, false) ∧
    (clear_model_cache true st).1.success = true ∧
    (clear_model_cache true st).2.1.model_loaded = false ∧
    (clear_model_cache true st).2.2 = true :=
  ⟨rfl, rfl, rfl, rfl⟩

/-- Claim C6, witness: the upgrade rule evaluated concretely — beams at
(fast, low) are 1; beams never drop from fast to maximum at accuracy
high; and max length at (maximum, maximum) is 200. -/
theorem generation_config_upgrade_rule_witness :
    (get_generation_config "fast" "low").num_beams =
      some (baseline_beams Speed.fast) ∧
    (get_generation_config "fast" "high").num_beams.getD 1 ≤
      (get_generation_config "maximum" "high").num_beams.getD 1 ∧
    (get_generation_config "maximum" "maximum").max_length =
      if (Accuracy.maximum = Accuracy.maximum) then 200
      else if (Accuracy.maximum = Accuracy.high ∧ Speed.maximum ≠ Speed.fast
        ∧ Speed.maximum ≠ Speed.balanced) then 150 else 128 :=
  ⟨generation_config_upgrade_rule.1 Speed.fast,
   generation_config_upgrade_rule.2.1 Accuracy.high Speed.fast Speed.maximum
     (by decide),
   generation_config_upgrade_rule.2.2.2 Speed.maximum Accuracy.maximum⟩
